import Mathlib

/-!
Shallow embedding of the BiashAI retail application (src/pos_ai), covering the
request handlers and model rows referenced by the verified claims:

  models.py : Store, Product, StoreInventory, ShoppingSession, ShoppingCart,
              PaymentAccount, Transaction, TransactionItem, FaceRecognitionLog,
              LoyaltyProgram, LoyaltyTransaction
  views.py  : transaction_detail, add_payment_account, start_shopping_session,
              add_to_cart, checkout, api_store_status, api_product_availability

Money amounts (Django DecimalField, exact decimal arithmetic in these code
paths) are modelled as rationals; Django IntegerField columns as integers;
UUID primary keys as natural-number surrogates.  Database tables are lists of
rows inside a single `DB` record; each handler is a pure function from a `DB`
(plus request parameters) to a response and a successor `DB`.  Django's
`transaction.atomic` block is modelled by running the block body as an
`Option DB` computation: `none` (an exception in the block) commits nothing
and the handler returns the pre-state unchanged, which is exactly the
framework's rollback guarantee for the enclosed writes.
-/

/-- Python `int(q)` applied to a (Decimal-valued) rational: truncation toward
zero, as in views.py line 775 `points_earned = int(total)`. -/
def pyInt (q : ℚ) : ℤ :=
  if 0 ≤ q then ((q.num.toNat / q.den : ℕ) : ℤ) else -(((-q).num.toNat / (-q).den : ℕ) : ℤ)

/-- models.py `Store` (the fields used by the embedded handlers; opening and
closing times are minutes since midnight). -/
structure Store where
  id : Nat
  name : String
  openingTime : Nat
  closingTime : Nat
  is24Hours : Bool
  isActive : Bool
deriving DecidableEq

/-- models.py `Product` (id, name, price, vat_rate, is_active). -/
structure Product where
  id : Nat
  name : String
  price : ℚ
  vatRate : ℚ
  isActive : Bool
deriving DecidableEq

/-- models.py `StoreInventory`: quantity is a Django IntegerField (an ℤ;
the `MinValueValidator(0)` declared on it runs only in form validation,
not on `.save()`). -/
structure InventoryRow where
  storeId : Nat
  productId : Nat
  quantity : ℤ
  isAvailable : Bool
deriving DecidableEq

/-- models.py `ShoppingSession.SESSION_STATUS_CHOICES`. -/
inductive SessionStatus
  | active
  | completed
  | abandoned
  | cancelled
deriving DecidableEq

/-- models.py `ShoppingSession` (id, user, store, status, exit_time
presence). -/
structure Session where
  id : Nat
  userId : Nat
  storeId : Nat
  status : SessionStatus
  hasExitTime : Bool
deriving DecidableEq

/-- models.py `ShoppingCart` line: (session, product) unique together,
quantity IntegerField, unit_price snapshot. -/
structure CartLine where
  sessionId : Nat
  productId : Nat
  quantity : ℤ
  unitPrice : ℚ
deriving DecidableEq

/-- models.py `ShoppingCart.subtotal` property: `unit_price * quantity`. -/
def CartLine.subtotal (c : CartLine) : ℚ := c.unitPrice * (c.quantity : ℚ)

/-- models.py `PaymentAccount`. -/
structure PaymentAccount where
  id : Nat
  userId : Nat
  method : String
  accountNumber : String
  accountName : String
  isPrimary : Bool
  isVerified : Bool
  isActive : Bool
deriving DecidableEq

/-- models.py `Transaction.TRANSACTION_STATUS_CHOICES`. -/
inductive TxnStatus
  | pending
  | processing
  | completed
  | failed
  | refunded
  | cancelled
deriving DecidableEq

/-- models.py `Transaction` (the amount, status and ownership fields). -/
structure Txn where
  id : Nat
  sessionId : Nat
  userId : Nat
  storeId : Nat
  paymentAccountId : Nat
  subtotal : ℚ
  vatAmount : ℚ
  discountAmount : ℚ
  totalAmount : ℚ
  status : TxnStatus
deriving DecidableEq

/-- models.py `TransactionItem`: immutable snapshot of a cart line at sale
time. -/
structure TxnItem where
  txnId : Nat
  productId : Nat
  productName : String
  quantity : ℤ
  unitPrice : ℚ
  vatRate : ℚ
  subtotal : ℚ
  vatAmount : ℚ
  total : ℚ
deriving DecidableEq

/-- models.py `FaceRecognitionLog.recognition_type` values used by the
embedded handlers. -/
inductive RecognitionType
  | entry
  | checkoutScan
deriving DecidableEq

/-- models.py `FaceRecognitionLog` (append-only). -/
structure FaceLog where
  userId : Nat
  storeId : Nat
  rtype : RecognitionType
  sessionId : Option Nat
  txnId : Option Nat
deriving DecidableEq

/-- models.py `LoyaltyProgram` point counters (IntegerField columns). -/
structure LoyaltyProgram where
  userId : Nat
  totalPointsEarned : ℤ
  totalPointsRedeemed : ℤ
  currentBalance : ℤ
deriving DecidableEq

/-- models.py `LoyaltyTransaction.TRANSACTION_TYPE_CHOICES`. -/
inductive LoyaltyTxnType
  | earn
  | redeem
  | expire
  | adjust
deriving DecidableEq

/-- models.py `LoyaltyTransaction` (append-only ledger row). -/
structure LoyaltyTxn where
  programUserId : Nat
  ttype : LoyaltyTxnType
  points : ℤ
  balanceAfter : ℤ
  relatedTxnId : Option Nat
deriving DecidableEq

/-- The relational state the embedded handlers read and write.
`facialDataUsers` is the set of users owning an active `FacialData` row. -/
structure DB where
  stores : List Store
  products : List Product
  inventory : List InventoryRow
  sessions : List Session
  carts : List CartLine
  paymentAccounts : List PaymentAccount
  transactions : List Txn
  txnItems : List TxnItem
  faceLogs : List FaceLog
  loyalty : List LoyaltyProgram
  loyaltyTxns : List LoyaltyTxn
  facialDataUsers : List Nat
deriving DecidableEq

/-! ## Handler embeddings (views.py) -/

/-- views.py line 265 lookup filter: `get_object_or_404(Transaction,
id=transaction_id, user=request.user)`. -/
def txnMatch (txnId userId : Nat) (t : Txn) : Bool :=
  t.id == txnId && t.userId == userId

/-- Response of `transaction_detail`. -/
inductive DetailResult
  | notFound
  | render (txnId : Nat) (itemCount : Nat)
deriving DecidableEq

/-- views.py lines 262-272 `transaction_detail`: 404 when no transaction with
the given id belongs to the requesting user, otherwise render the transaction
with its items. -/
def transaction_detail (db : DB) (userId txnId : Nat) : DetailResult :=
  match db.transactions.find? (txnMatch txnId userId) with
  | none => DetailResult.notFound
  | some t => DetailResult.render t.id (db.txnItems.filter (fun i => i.txnId == t.id)).length

/-- views.py lines 354-381 `add_payment_account` (POST): when the new account
is flagged primary, first clear `is_primary` on every other account of the
user, then create the account (unverified, active). -/
def add_payment_account (db : DB) (userId newId : Nat)
    (method accountNumber accountName : String) (isPrimary : Bool) : DB :=
  let cleared :=
    if isPrimary then
      db.paymentAccounts.map (fun a =>
        if a.userId == userId && a.isPrimary then { a with isPrimary := false } else a)
    else db.paymentAccounts
  { db with paymentAccounts := cleared ++
      [{ id := newId, userId := userId, method := method,
         accountNumber := accountNumber, accountName := accountName,
         isPrimary := isPrimary, isVerified := false, isActive := true }] }

/-- views.py line 520 filter: the requesting user's ACTIVE session. -/
def userActiveSession (userId : Nat) (s : Session) : Bool :=
  s.userId == userId && s.status == SessionStatus.active

/-- Response of `start_shopping_session`. -/
inductive StartSessionResult
  | storeNotFound
  | needFaceRegistration
  | alreadyActive (sessionId : Nat)
  | started (sessionId : Nat)
deriving DecidableEq

/-- views.py lines 509-563 `start_shopping_session`: 404 on a missing or
inactive store; redirect to face registration when the user has no active
facial data; redirect to the existing session when the user already has an
ACTIVE one; otherwise create a new ACTIVE session and append an ENTRY
`FaceRecognitionLog`.  `newSessionId` stands for the generated session id. -/
def start_shopping_session (db : DB) (userId storeId newSessionId : Nat) :
    StartSessionResult × DB :=
  match db.stores.find? (fun st => st.id == storeId && st.isActive) with
  | none => (StartSessionResult.storeNotFound, db)
  | some _ =>
    if db.facialDataUsers.contains userId then
      match db.sessions.find? (userActiveSession userId) with
      | some s => (StartSessionResult.alreadyActive s.id, db)
      | none =>
        let sess : Session :=
          { id := newSessionId, userId := userId, storeId := storeId,
            status := SessionStatus.active, hasExitTime := false }
        (StartSessionResult.started newSessionId,
         { db with
             sessions := db.sessions ++ [sess],
             faceLogs := db.faceLogs ++
               [{ userId := userId, storeId := storeId, rtype := RecognitionType.entry,
                  sessionId := some newSessionId, txnId := none }] })
    else (StartSessionResult.needFaceRegistration, db)

/-- views.py lines 595 and 661-666 lookup filter: `get_object_or_404(
ShoppingSession, id=session_id, user=request.user, status='ACTIVE')`. -/
def sessionMatch (sessionId userId : Nat) (s : Session) : Bool :=
  s.id == sessionId && s.userId == userId && s.status == SessionStatus.active

/-- Response of `add_to_cart`. -/
inductive AddToCartResult
  | notFound
  | unavailable
  | added
deriving DecidableEq

/-- views.py lines 592-624 `add_to_cart`: 404 unless the session is the
requester's and ACTIVE and the product exists and is active; error when the
store has no available inventory row or its quantity is not positive;
otherwise `get_or_create` the cart line with quantity 1 and a price snapshot,
or increment the existing line's quantity by 1.  No upper bound against the
inventory quantity is checked. -/
def add_to_cart (db : DB) (userId sessionId productId : Nat) : AddToCartResult × DB :=
  match db.sessions.find? (sessionMatch sessionId userId) with
  | none => (AddToCartResult.notFound, db)
  | some sess =>
    match db.products.find? (fun p => p.id == productId && p.isActive) with
    | none => (AddToCartResult.notFound, db)
    | some p =>
      match db.inventory.find? (fun r =>
          r.storeId == sess.storeId && r.productId == productId && r.isAvailable) with
      | none => (AddToCartResult.unavailable, db)
      | some inv =>
        if inv.quantity ≤ 0 then (AddToCartResult.unavailable, db)
        else if db.carts.any (fun c => c.sessionId == sessionId && c.productId == productId) then
          (AddToCartResult.added,
           { db with carts := db.carts.map (fun c =>
               if c.sessionId == sessionId && c.productId == productId
               then { c with quantity := c.quantity + 1 } else c) })
        else
          (AddToCartResult.added,
           { db with carts := db.carts ++
               [{ sessionId := sessionId, productId := productId,
                  quantity := 1, unitPrice := p.price }] })

/-- The live product's `vat_rate` (views.py reads `cart_item.product.vat_rate`;
a foreign key guarantees the product row exists, `0` is the out-of-model
default). -/
def vatRateOf (db : DB) (productId : Nat) : ℚ :=
  ((db.products.find? (fun p => p.id == productId)).map Product.vatRate).getD 0

/-- The live product's name (snapshot into `TransactionItem.product_name`). -/
def productNameOf (db : DB) (productId : Nat) : String :=
  ((db.products.find? (fun p => p.id == productId)).map Product.name).getD ""

/-- views.py line 675: `subtotal = sum(item.subtotal for item in cart_items)`. -/
def cartSubtotal (lines : List CartLine) : ℚ :=
  (lines.map CartLine.subtotal).sum

/-- views.py line 676: `vat_amount = sum(item.subtotal * item.product.vat_rate
/ 100 for item in cart_items)`. -/
def cartVat (db : DB) (lines : List CartLine) : ℚ :=
  (lines.map (fun c => c.subtotal * vatRateOf db c.productId / 100)).sum

/-- views.py lines 737-742: `StoreInventory.objects.get(store=..., product=...)`
raises `DoesNotExist` (here `none`) when the row is missing, then
`inventory.quantity -= cart_item.quantity; inventory.save()` with no lower
bound. -/
def decrementInventory (inv : List InventoryRow) (storeId productId : Nat) (q : ℤ) :
    Option (List InventoryRow) :=
  if inv.any (fun r => r.storeId == storeId && r.productId == productId) then
    some (inv.map (fun r =>
      if r.storeId == storeId && r.productId == productId
      then { r with quantity := r.quantity - q } else r))
  else none

/-- views.py lines 720-742, the per-cart-line loop: build the
`TransactionItem` snapshot (`item_vat = subtotal * vat_rate / 100`,
`item_total = subtotal + item_vat`) and decrement the matching inventory row;
a missing inventory row raises, aborting the whole loop. -/
def processCartLines (db : DB) (txnId storeId : Nat) :
    List CartLine → List TxnItem → List InventoryRow →
    Option (List TxnItem × List InventoryRow)
  | [], items, inv => some (items, inv)
  | c :: rest, items, inv =>
    let vr := vatRateOf db c.productId
    let itemVat := c.subtotal * vr / 100
    let item : TxnItem :=
      { txnId := txnId, productId := c.productId,
        productName := productNameOf db c.productId,
        quantity := c.quantity, unitPrice := c.unitPrice, vatRate := vr,
        subtotal := c.subtotal, vatAmount := itemVat,
        total := c.subtotal + itemVat }
    match decrementInventory inv storeId c.productId c.quantity with
    | none => none
    | some inv2 => processCartLines db txnId storeId rest (items ++ [item]) inv2

/-- views.py lines 770-773: `request.user.loyalty`, creating the program with
the model's zero defaults when it does not exist yet. -/
def newLoyaltyProgram (userId : Nat) : LoyaltyProgram :=
  { userId := userId, totalPointsEarned := 0, totalPointsRedeemed := 0, currentBalance := 0 }

/-- Fetch the user's loyalty program, defaulting to a fresh one. -/
def getOrCreateLoyalty (lps : List LoyaltyProgram) (userId : Nat) : LoyaltyProgram :=
  (lps.find? (fun lp => lp.userId == userId)).getD (newLoyaltyProgram userId)

/-- Persist the (possibly fresh) loyalty program row. -/
def saveLoyalty (lps : List LoyaltyProgram) (lp : LoyaltyProgram) : List LoyaltyProgram :=
  if lps.any (fun x => x.userId == lp.userId) then
    lps.map (fun x => if x.userId == lp.userId then lp else x)
  else lp :: lps

/-- views.py line 682 lookup filter: `get_object_or_404(PaymentAccount,
id=..., user=request.user, is_active=True)`. -/
def paMatch (accountId userId : Nat) (a : PaymentAccount) : Bool :=
  a.id == accountId && a.userId == userId && a.isActive

/-- views.py lines 690-792, the body of `with transaction.atomic()`: create
the Transaction (PENDING, discount 0), loop over cart lines (items +
inventory decrements), mark the session COMPLETED with an exit time, mark the
transaction COMPLETED, append a CHECKOUT face log, accrue loyalty points
(`int(total)`, added to both `total_points_earned` and `current_balance`) and
append the EARN `LoyaltyTransaction` carrying `balance_after`.  `none` is an
exception inside the block. -/
def checkoutAtomicBody (db : DB) (sess : Session) (pa : PaymentAccount)
    (lines : List CartLine) (subtotal vat total : ℚ) (txnId : Nat) : Option DB :=
  match processCartLines db txnId sess.storeId lines [] db.inventory with
  | none => none
  | some (items, inv2) =>
    let txn : Txn :=
      { id := txnId, sessionId := sess.id, userId := sess.userId,
        storeId := sess.storeId, paymentAccountId := pa.id,
        subtotal := subtotal, vatAmount := vat, discountAmount := 0,
        totalAmount := total, status := TxnStatus.completed }
    let points := pyInt total
    let lp := getOrCreateLoyalty db.loyalty sess.userId
    let lp2 : LoyaltyProgram :=
      { lp with totalPointsEarned := lp.totalPointsEarned + points,
                currentBalance := lp.currentBalance + points }
    some { db with
      transactions := db.transactions ++ [txn],
      txnItems := db.txnItems ++ items,
      inventory := inv2,
      sessions := db.sessions.map (fun s =>
        if s.id == sess.id
        then { s with status := SessionStatus.completed, hasExitTime := true } else s),
      faceLogs := db.faceLogs ++
        [{ userId := sess.userId, storeId := sess.storeId,
           rtype := RecognitionType.checkoutScan,
           sessionId := some sess.id, txnId := some txnId }],
      loyalty := saveLoyalty db.loyalty lp2,
      loyaltyTxns := db.loyaltyTxns ++
        [{ programUserId := sess.userId, ttype := LoyaltyTxnType.earn,
           points := points, balanceAfter := lp2.currentBalance,
           relatedTxnId := some txnId }] }

/-- Response of `checkout` (POST): 404, empty-cart error redirect, a server
error after the atomic block rolled back, or success. -/
inductive CheckoutResult
  | notFound
  | emptyCart
  | serverError
  | success (txnId : Nat)
deriving DecidableEq

/-- views.py lines 658-795 `checkout` (POST path): 404 unless the session is
the requester's and ACTIVE; error redirect (no writes) when the cart is
empty; 404 when the chosen payment account is not the requester's active
account; otherwise compute subtotal, VAT and total from the cart lines and
run the atomic block — an exception inside it rolls every write back.
`db.transactions.length + 1` stands for the generated transaction id. -/
def checkout (db : DB) (userId sessionId accountId : Nat) : CheckoutResult × DB :=
  match db.sessions.find? (sessionMatch sessionId userId) with
  | none => (CheckoutResult.notFound, db)
  | some sess =>
    let lines := db.carts.filter (fun c => c.sessionId == sessionId)
    if lines.isEmpty then (CheckoutResult.emptyCart, db)
    else
      match db.paymentAccounts.find? (paMatch accountId userId) with
      | none => (CheckoutResult.notFound, db)
      | some pa =>
        let subtotal := cartSubtotal lines
        let vat := cartVat db lines
        let total := subtotal + vat
        let txnId := db.transactions.length + 1
        match checkoutAtomicBody db sess pa lines subtotal vat total txnId with
        | none => (CheckoutResult.serverError, db)
        | some db2 => (CheckoutResult.success txnId, db2)

/-- JSON body of `api_store_status` (the fields the claims mention). -/
structure StoreStatusResponse where
  storeId : Nat
  storeName : String
  isOpen : Bool
  activeSessions : Nat
deriving DecidableEq

/-- views.py lines 1048-1081 `api_store_status`: 404 on a missing store,
otherwise a JSON body whose `is_open` field is computed by line 1074 as
`store.is_24_hours or True`. -/
def api_store_status (db : DB) (storeId : Nat) : Option StoreStatusResponse :=
  (db.stores.find? (fun st => st.id == storeId)).map (fun st =>
    { storeId := st.id, storeName := st.name,
      isOpen := st.is24Hours || true,
      activeSessions := (db.sessions.filter (fun s =>
        s.storeId == storeId && s.status == SessionStatus.active)).length })

/-- Response of `api_product_availability`: either an HTTP 404 or a normal
JSON body. -/
inductive AvailabilityResult
  | notFound
  | json (available : Bool) (quantity : ℤ)
deriving DecidableEq

/-- views.py lines 1084-1107 `api_product_availability`: look up the
(product, store) inventory row; on `DoesNotExist` the handler catches the
exception and returns a normal JSON body with `available=False, quantity=0`
rather than a 404. -/
def api_product_availability (db : DB) (productId storeId : Nat) : AvailabilityResult :=
  match db.inventory.find? (fun r => r.productId == productId && r.storeId == storeId) with
  | some inv => AvailabilityResult.json (inv.isAvailable && decide (0 < inv.quantity)) inv.quantity
  | none => AvailabilityResult.json false 0

/-! ## Invariants stated by the spec -/

/-- Spec §3: `LoyaltyProgram.current_balance = total_points_earned −
total_points_redeemed` for every loyalty row. -/
def loyaltyInv (db : DB) : Prop :=
  ∀ lp ∈ db.loyalty, lp.currentBalance = lp.totalPointsEarned - lp.totalPointsRedeemed

/-- Number of ACTIVE sessions a user holds. -/
def activeSessionCount (db : DB) (userId : Nat) : Nat :=
  db.sessions.countP (userActiveSession userId)

/-- Spec §8: a user cannot hold two ACTIVE sessions simultaneously. -/
def oneActiveSessionInv (db : DB) : Prop :=
  ∀ userId, activeSessionCount db userId ≤ 1

/-- Number of primary payment accounts a user holds. -/
def primaryCount (db : DB) (userId : Nat) : Nat :=
  db.paymentAccounts.countP (fun a => a.userId == userId && a.isPrimary)

/-- At most one primary payment account per user. -/
def onePrimaryInv (db : DB) : Prop :=
  ∀ userId, primaryCount db userId ≤ 1

/-! ## Example states (used by witnesses and counterexamples) -/

/-- An ACTIVE session of user 1 at store 1. -/
def sessMain : Session :=
  { id := 1, userId := 1, storeId := 1, status := SessionStatus.active, hasExitTime := false }

/-- A store and product catalog with one unit of stock, an ACTIVE session and
a usable payment account, but an empty cart. -/
def dbMain : DB :=
  { stores := [{ id := 1, name := "Main", openingTime := 480, closingTime := 1260,
                 is24Hours := false, isActive := true }],
    products := [{ id := 1, name := "Milk", price := 10, vatRate := 16, isActive := true }],
    inventory := [{ storeId := 1, productId := 1, quantity := 1, isAvailable := true }],
    sessions := [sessMain],
    carts := [],
    paymentAccounts := [{ id := 1, userId := 1, method := "MPESA", accountNumber := "0700",
                          accountName := "A", isPrimary := true, isVerified := true,
                          isActive := true }],
    transactions := [], txnItems := [], faceLogs := [], loyalty := [], loyaltyTxns := [],
    facialDataUsers := [1] }

/-- `dbMain` after user 1 added product 1 to the cart twice: the cart line
holds 2 units while the store has only 1 in stock. -/
def dbOversold : DB := (add_to_cart (add_to_cart dbMain 1 1 1).2 1 1 1).2

/-- `dbMain` with plenty of stock and a two-unit cart line. -/
def dbCart : DB :=
  { dbMain with
      inventory := [{ storeId := 1, productId := 1, quantity := 5, isAvailable := true }],
      carts := [{ sessionId := 1, productId := 1, quantity := 2, unitPrice := 10 }] }

/-- A state whose cart references product 2, for which the store has no
inventory row: the checkout loop raises `StoreInventory.DoesNotExist`. -/
def dbNoInventory : DB :=
  { dbMain with
      carts := [{ sessionId := 1, productId := 2, quantity := 1, unitPrice := 7 }] }

/-- The empty relational state. -/
def dbEmpty : DB :=
  { stores := [], products := [], inventory := [], sessions := [], carts := [],
    paymentAccounts := [], transactions := [], txnItems := [], faceLogs := [],
    loyalty := [], loyaltyTxns := [], facialDataUsers := [] }

/-! ## Helper lemmas -/

theorem cart_sum_split (db : DB) (l : List CartLine) :
    (l.map (fun c => c.subtotal + c.subtotal * vatRateOf db c.productId / 100)).sum =
      cartSubtotal l + cartVat db l := by
  unfold cartSubtotal cartVat
  induction l with
  | nil => simp
  | cons c rest ih => simp [ih]; ring

theorem earn_preserves_balance (lp : LoyaltyProgram) (p : ℤ)
    (h : lp.currentBalance = lp.totalPointsEarned - lp.totalPointsRedeemed) :
    ({ lp with totalPointsEarned := lp.totalPointsEarned + p,
               currentBalance := lp.currentBalance + p } : LoyaltyProgram).currentBalance =
      ({ lp with totalPointsEarned := lp.totalPointsEarned + p,
                 currentBalance := lp.currentBalance + p } : LoyaltyProgram).totalPointsEarned -
        ({ lp with totalPointsEarned := lp.totalPointsEarned + p,
                   currentBalance := lp.currentBalance + p } : LoyaltyProgram).totalPointsRedeemed := by
  simp only
  omega

theorem getOrCreateLoyalty_userId (l : List LoyaltyProgram) (uid : Nat) :
    (getOrCreateLoyalty l uid).userId = uid := by
  unfold getOrCreateLoyalty
  cases hf : l.find? (fun lp => lp.userId == uid) with
  | none => simp [newLoyaltyProgram]
  | some y =>
    simp only [Option.getD_some]
    have hy := List.find?_some hf
    simpa using hy

theorem countP_map_le {α : Type} (p : α → Bool) (g : α → α)
    (h : ∀ x, p (g x) = true → p x = true) :
    ∀ l : List α, (l.map g).countP p ≤ l.countP p := by
  intro l
  induction l with
  | nil => simp
  | cons a rest ih =>
    simp only [List.map_cons, List.countP_cons]
    by_cases hp : p (g a) = true
    · rw [if_pos hp, if_pos (h a hp)]; omega
    · rw [if_neg hp]
      by_cases hq : p a = true
      · rw [if_pos hq]; omega
      · rw [if_neg hq]; omega

theorem countP_map_eq {α : Type} (p : α → Bool) (g : α → α)
    (h : ∀ x, p (g x) = p x) :
    ∀ l : List α, (l.map g).countP p = l.countP p := by
  intro l
  induction l with
  | nil => simp
  | cons a rest ih => simp only [List.map_cons, List.countP_cons, h, ih]

theorem processCartLines_totals (db : DB) (txnId storeId : Nat) :
    ∀ (lines : List CartLine) (acc : List TxnItem) (inv : List InventoryRow)
      (items : List TxnItem) (inv2 : List InventoryRow),
      processCartLines db txnId storeId lines acc inv = some (items, inv2) →
      items.map TxnItem.total =
        acc.map TxnItem.total ++
          lines.map (fun c => c.subtotal + c.subtotal * vatRateOf db c.productId / 100) := by
  intro lines
  induction lines with
  | nil =>
    intro acc inv items inv2 h
    simp only [processCartLines, Option.some.injEq, Prod.mk.injEq] at h
    rw [← h.1]
    simp
  | cons c rest ih =>
    intro acc inv items inv2 h
    simp only [processCartLines] at h
    cases hd : decrementInventory inv storeId c.productId c.quantity with
    | none => rw [hd] at h; simp at h
    | some inv3 =>
      rw [hd] at h
      have hrec := ih _ inv3 items inv2 h
      rw [hrec]
      simp

theorem mem_saveLoyalty {l : List LoyaltyProgram} {lp x : LoyaltyProgram}
    (h : x ∈ saveLoyalty l lp) : x = lp ∨ x ∈ l := by
  unfold saveLoyalty at h
  split at h
  · rcases List.mem_map.mp h with ⟨y, hy, hxy⟩
    by_cases hc : y.userId = lp.userId
    · left
      rw [← hxy]
      simp [hc]
    · right
      rw [← hxy]
      simp [hc]
      exact hy
  · rcases List.mem_cons.mp h with h1 | h1
    · left; exact h1
    · right; exact h1

theorem getOrCreateLoyalty_balance (l : List LoyaltyProgram) (uid : Nat)
    (h : ∀ lp ∈ l, lp.currentBalance = lp.totalPointsEarned - lp.totalPointsRedeemed) :
    (getOrCreateLoyalty l uid).currentBalance =
      (getOrCreateLoyalty l uid).totalPointsEarned -
        (getOrCreateLoyalty l uid).totalPointsRedeemed := by
  unfold getOrCreateLoyalty
  cases hf : l.find? (fun lp => lp.userId == uid) with
  | none => simp [newLoyaltyProgram]
  | some y =>
    simp only [Option.getD_some]
    exact h y (List.mem_of_find?_eq_some hf)

theorem find_map_replace (lp : LoyaltyProgram) :
    ∀ l : List LoyaltyProgram, l.any (fun x => x.userId == lp.userId) = true →
      (l.map (fun x => if x.userId == lp.userId then lp else x)).find?
        (fun x => x.userId == lp.userId) = some lp := by
  intro l
  induction l with
  | nil => intro h; simp at h
  | cons a rest ih =>
    intro h
    by_cases ha : a.userId = lp.userId
    · have hga : (if (a.userId == lp.userId) = true then lp else a) = lp :=
        if_pos (by simp [ha])
      rw [List.map_cons, hga, List.find?_cons_of_pos _ (by simp)]
    · have h1 : rest.any (fun x => x.userId == lp.userId) = true := by
        simp only [List.any_cons, Bool.or_eq_true, beq_iff_eq] at h
        rcases h with h2 | h2
        · exact absurd h2 ha
        · simpa using h2
      have hga : (if (a.userId == lp.userId) = true then lp else a) = a :=
        if_neg (by simp [ha])
      rw [List.map_cons, hga, List.find?_cons_of_neg _ (by simp [ha])]
      exact ih h1

theorem find_in_saveLoyalty (l : List LoyaltyProgram) (lp : LoyaltyProgram) :
    (saveLoyalty l lp).find? (fun x => x.userId == lp.userId) = some lp := by
  unfold saveLoyalty
  split
  · rename_i hany
    exact find_map_replace lp l hany
  · rw [List.find?_cons_of_pos _ (by simp)]

theorem getOrCreate_after_save (l : List LoyaltyProgram) (lp : LoyaltyProgram) (uid : Nat)
    (h : lp.userId = uid) : getOrCreateLoyalty (saveLoyalty l lp) uid = lp := by
  unfold getOrCreateLoyalty
  rw [← h]
  rw [find_in_saveLoyalty]
  simp

theorem checkout_success_form (db : DB) (userId sessionId accountId txnId : Nat) (db2 : DB)
    (h : checkout db userId sessionId accountId = (CheckoutResult.success txnId, db2)) :
    ∃ sess pa,
      db.sessions.find? (sessionMatch sessionId userId) = some sess ∧
      db.paymentAccounts.find? (paMatch accountId userId) = some pa ∧
      txnId = db.transactions.length + 1 ∧
      checkoutAtomicBody db sess pa (db.carts.filter (fun c => c.sessionId == sessionId))
        (cartSubtotal (db.carts.filter (fun c => c.sessionId == sessionId)))
        (cartVat db (db.carts.filter (fun c => c.sessionId == sessionId)))
        (cartSubtotal (db.carts.filter (fun c => c.sessionId == sessionId)) +
          cartVat db (db.carts.filter (fun c => c.sessionId == sessionId)))
        (db.transactions.length + 1) = some db2 := by
  simp only [checkout] at h
  split at h
  · simp at h
  · rename_i sess hsess
    split at h
    · simp at h
    · split at h
      · simp at h
      · rename_i pa hpa
        split at h
        · simp at h
        · rename_i db2x hbody
          obtain ⟨h1, h2⟩ := Prod.mk.injEq _ _ _ _ ▸ h
          refine ⟨sess, pa, hsess, hpa, ?_, ?_⟩
          · cases h1; rfl
          · rw [h2] at hbody; exact hbody

/-! ## Claim theorems -/

/-- Claim C10: `api_store_status` always reports the store as open — for
every existing store, whatever its opening and closing times or `is_24_hours`
flag, the response's `is_open` field is `true`, because views.py line 1074
computes it as `store.is_24_hours or True`. -/
theorem api_store_status_always_open (db : DB) (storeId : Nat) (r : StoreStatusResponse)
    (h : api_store_status db storeId = some r) : r.isOpen = true := by
  unfold api_store_status at h
  rcases Option.map_eq_some'.mp h with ⟨st, _, hr⟩
  rw [← hr]
  simp

/-- Witness for C10 at the concrete state `dbMain`: store 1 is not 24-hour
(it opens 08:00 and closes 21:00), yet its reported status is open. -/
theorem api_store_status_always_open_witness :
    (api_store_status dbMain 1 =
      some { storeId := 1, storeName := "Main", isOpen := true, activeSessions := 1 }) ∧
    ({ storeId := 1, storeName := "Main", isOpen := true,
       activeSessions := 1 } : StoreStatusResponse).isOpen = true :=
  ⟨by decide, api_store_status_always_open dbMain 1 _ (by decide)⟩

/-- Counterexample to claim C8 as stated: at the empty state there is no
`StoreInventory` row for product 1 at store 1, yet `api_product_availability`
answers with a normal JSON body (`available=False, quantity=0`), not with a
not-found response — views.py lines 1099-1105 catch `DoesNotExist` and build
the JSON instead of returning a 404. -/
theorem api_product_availability_missing_row_not_404 :
    api_product_availability dbEmpty 1 1 ≠ AvailabilityResult.notFound ∧
    api_product_availability dbEmpty 1 1 = AvailabilityResult.json false 0 := by
  constructor
  · decide
  · decide

/-- Claim C8 (amended): `transaction_detail` on a transaction id that does
not exist for the requesting user yields a 404, while
`api_product_availability` on a (product, store) pair with no inventory row
yields a normal JSON response with `available=False` and `quantity=0` (not a
404). -/
theorem missing_record_responses (db : DB) (userId txnId productId storeId : Nat)
    (h1 : db.transactions.find? (txnMatch txnId userId) = none)
    (h2 : db.inventory.find? (fun r => r.productId == productId && r.storeId == storeId) = none) :
    transaction_detail db userId txnId = DetailResult.notFound ∧
    api_product_availability db productId storeId = AvailabilityResult.json false 0 := by
  constructor
  · unfold transaction_detail
    rw [h1]
  · unfold api_product_availability
    rw [h2]

/-- Witness for the amended C8 at the empty state. -/
theorem missing_record_responses_witness :
    transaction_detail dbEmpty 1 1 = DetailResult.notFound ∧
    api_product_availability dbEmpty 1 1 = AvailabilityResult.json false 0 :=
  missing_record_responses dbEmpty 1 1 1 1 rfl rfl

/-- Claim C6: checkout requires an ACTIVE session owned by the requester and
a non-empty cart.  When no session matches (id, user, ACTIVE) the response is
not-found and the state is unchanged; when the session matches but its cart
is empty the response is the empty-cart error and the state is unchanged (in
particular the session is still ACTIVE and no Transaction was created). -/
theorem checkout_preconditions (db : DB) (userId sessionId accountId : Nat) :
    (db.sessions.find? (sessionMatch sessionId userId) = none →
      checkout db userId sessionId accountId = (CheckoutResult.notFound, db)) ∧
    (∀ sess, db.sessions.find? (sessionMatch sessionId userId) = some sess →
      db.carts.filter (fun c => c.sessionId == sessionId) = [] →
      checkout db userId sessionId accountId = (CheckoutResult.emptyCart, db)) := by
  constructor
  · intro h
    unfold checkout
    rw [h]
  · intro sess h hc
    unfold checkout
    rw [h]
    simp [hc]

/-- Witness for C6: at `dbMain` the cart of session 1 is empty, so checkout
answers with the empty-cart error and leaves the state untouched. -/
theorem checkout_preconditions_witness :
    checkout dbMain 1 1 1 = (CheckoutResult.emptyCart, dbMain) :=
  (checkout_preconditions dbMain 1 1 1).2 sessMain rfl rfl

/-- Claim C3: checkout is all-or-nothing.  If any step of the atomic block
raises (modelled by `checkoutAtomicBody` returning `none`), the handler
answers with a server error and the returned state is exactly the pre-state:
no Transaction, TransactionItem, FaceRecognitionLog or LoyaltyTransaction row
was added, the inventory is untouched, and the session that checkout had
found is still ACTIVE. -/
theorem checkout_rollback_on_exception (db : DB) (userId sessionId accountId : Nat) (db2 : DB)
    (h : checkout db userId sessionId accountId = (CheckoutResult.serverError, db2)) :
    db2 = db ∧
    db2.transactions = db.transactions ∧
    db2.txnItems = db.txnItems ∧
    db2.faceLogs = db.faceLogs ∧
    db2.loyaltyTxns = db.loyaltyTxns ∧
    db2.inventory = db.inventory ∧
    ∃ s ∈ db2.sessions, s.id = sessionId ∧ s.userId = userId ∧
      s.status = SessionStatus.active := by
  simp only [checkout] at h
  split at h
  · simp at h
  · rename_i sess hsess
    split at h
    · simp at h
    · split at h
      · simp at h
      · split at h
        · obtain ⟨-, h2⟩ := Prod.mk.injEq _ _ _ _ ▸ h
          subst h2
          refine ⟨rfl, rfl, rfl, rfl, rfl, rfl, sess, List.mem_of_find?_eq_some hsess, ?_⟩
          have hp := List.find?_some hsess
          unfold sessionMatch at hp
          simp only [Bool.and_eq_true, beq_iff_eq] at hp
          exact ⟨hp.1.1, hp.1.2, hp.2⟩
        · simp at h

/-- Witness for C3: in `dbNoInventory` the cart references product 2, for
which the store has no inventory row, so the atomic block raises
`StoreInventory.DoesNotExist`; checkout rolls back and the state is
unchanged. -/
theorem checkout_rollback_on_exception_witness :
    dbNoInventory = dbNoInventory ∧
    dbNoInventory.transactions = dbNoInventory.transactions ∧
    dbNoInventory.txnItems = dbNoInventory.txnItems ∧
    dbNoInventory.faceLogs = dbNoInventory.faceLogs ∧
    dbNoInventory.loyaltyTxns = dbNoInventory.loyaltyTxns ∧
    dbNoInventory.inventory = dbNoInventory.inventory ∧
    ∃ s ∈ dbNoInventory.sessions, s.id = 1 ∧ s.userId = 1 ∧
      s.status = SessionStatus.active :=
  checkout_rollback_on_exception dbNoInventory 1 1 1 dbNoInventory rfl

/-- Claim C1 is violated by the code (a bug): starting from one unit of
stock, `add_to_cart` accepts a second add (views.py line 605 only checks
`quantity <= 0`, and line 620 increments the existing line without comparing
against stock), so the cart holds 2 units against 1 in stock; checkout then
succeeds and line 741 `inventory.quantity -= cart_item.quantity` drives the
inventory quantity to -1, violating both the spec's invariant and the
model's own `MinValueValidator(0)` on `StoreInventory.quantity`. -/
theorem checkout_can_drive_inventory_negative :
    (add_to_cart dbMain 1 1 1).1 = AddToCartResult.added ∧
    (add_to_cart (add_to_cart dbMain 1 1 1).2 1 1 1).1 = AddToCartResult.added ∧
    dbOversold.inventory.map InventoryRow.quantity = [1] ∧
    dbOversold.carts.map CartLine.quantity = [2] ∧
    (checkout dbOversold 1 1 1).1 = CheckoutResult.success 1 ∧
    (checkout dbOversold 1 1 1).2.inventory.map InventoryRow.quantity = [-1] := by
  refine ⟨rfl, rfl, rfl, rfl, rfl, rfl⟩

/-- Claim C9: at most one primary payment account per user.
`add_payment_account` preserves the invariant: when the new account is
primary it first clears `is_primary` on every other account of that user
(views.py lines 363-366), otherwise it only appends a non-primary account. -/
theorem at_most_one_primary_account (db : DB) (userId newId : Nat)
    (method accountNumber accountName : String) (isPrimary : Bool)
    (h : onePrimaryInv db) :
    onePrimaryInv (add_payment_account db userId newId method accountNumber accountName isPrimary) := by
  intro u
  unfold primaryCount add_payment_account
  cases isPrimary with
  | false =>
    simp only [reduceIte, List.countP_append]
    have hnew : List.countP (fun a => a.userId == u && a.isPrimary)
        [({ id := newId, userId := userId, method := method,
            accountNumber := accountNumber, accountName := accountName,
            isPrimary := false, isVerified := false, isActive := true } : PaymentAccount)] = 0 := by
      simp [List.countP_cons]
    rw [hnew]
    simpa [primaryCount] using h u
  | true =>
    simp only [reduceIte, List.countP_append]
    by_cases hu : u = userId
    · subst hu
      have hzero : List.countP (fun a => a.userId == u && a.isPrimary)
          (db.paymentAccounts.map (fun a =>
            if a.userId == u && a.isPrimary then { a with isPrimary := false } else a)) = 0 := by
        rw [List.countP_eq_zero]
        intro a ha
        rcases List.mem_map.mp ha with ⟨b, _, hb⟩
        by_cases hc : (b.userId == u && b.isPrimary) = true
        · rw [if_pos hc] at hb
          rw [← hb]
          simp
        · rw [if_neg hc] at hb
          rw [← hb]
          simpa using hc
      rw [hzero]
      simp [List.countP_cons]
    · have hcongr : List.countP (fun a => a.userId == u && a.isPrimary)
          (db.paymentAccounts.map (fun a =>
            if a.userId == userId && a.isPrimary then { a with isPrimary := false } else a)) =
          List.countP (fun a => a.userId == u && a.isPrimary) db.paymentAccounts := by
        apply countP_map_eq
        intro x
        by_cases hc : (x.userId == userId && x.isPrimary) = true
        · rw [if_pos hc]
          simp only [Bool.and_eq_true, beq_iff_eq] at hc
          have hx : (x.userId == u) = false := by
            simp only [beq_eq_false_iff_ne, ne_eq]
            rw [hc.1]
            exact fun hh => hu hh.symm
          simp [hx]
        · rw [if_neg hc]
      rw [hcongr]
      have hnew : List.countP (fun a => a.userId == u && a.isPrimary)
          [({ id := newId, userId := userId, method := method,
              accountNumber := accountNumber, accountName := accountName,
              isPrimary := true, isVerified := false, isActive := true } : PaymentAccount)] = 0 := by
        have hx : ((userId : Nat) == u) = false := by
          simp only [beq_eq_false_iff_ne, ne_eq]
          exact fun hh => hu hh.symm
        simp [List.countP_cons, hx]
      rw [hnew]
      simpa [primaryCount] using h u

/-- Witness for C9: adding a primary account for user 1 to `dbMain`, which
already holds one primary account, leaves at most one primary account per
user. -/
theorem at_most_one_primary_account_witness :
    onePrimaryInv (add_payment_account dbMain 1 2 "CARD" "4111" "B" true) :=
  at_most_one_primary_account dbMain 1 2 "CARD" "4111" "B" true
    (fun u => le_trans (List.countP_le_length _) (by decide))

/-- Claim C5: at most one ACTIVE session per user, preserved by every
handler that touches session status: `start_shopping_session` refuses to
create a second ACTIVE session (views.py lines 520-527), and `checkout` only
moves a session out of ACTIVE (line 745). -/
theorem one_active_session_per_user :
    (∀ db userId storeId newSessionId, oneActiveSessionInv db →
      oneActiveSessionInv (start_shopping_session db userId storeId newSessionId).2) ∧
    (∀ db userId sessionId accountId, oneActiveSessionInv db →
      oneActiveSessionInv (checkout db userId sessionId accountId).2) := by
  constructor
  · intro db userId storeId newSessionId h
    unfold start_shopping_session
    split
    · exact h
    · split
      · split
        · exact h
        · rename_i hnone
          intro u
          unfold activeSessionCount
          simp only [List.countP_append]
          by_cases hu : u = userId
          · subst hu
            have hzero : db.sessions.countP (userActiveSession u) = 0 := by
              rw [List.countP_eq_zero]
              intro s hs
              exact (List.find?_eq_none.mp hnone) s hs
            rw [hzero]
            have : List.countP (userActiveSession u)
                [({ id := newSessionId, userId := u, storeId := storeId,
                    status := SessionStatus.active, hasExitTime := false } : Session)] ≤ 1 :=
              le_trans (List.countP_le_length _) (by simp)
            simpa using this
          · have hzero : List.countP (userActiveSession u)
                [({ id := newSessionId, userId := userId, storeId := storeId,
                    status := SessionStatus.active, hasExitTime := false } : Session)] = 0 := by
              have hx : ((userId : Nat) == u) = false := by
                simp only [beq_eq_false_iff_ne, ne_eq]
                exact fun hh => hu hh.symm
              simp [List.countP_cons, userActiveSession, hx]
            rw [hzero]
            simpa using h u
      · exact h
  · intro db userId sessionId accountId h
    simp only [checkout]
    split
    · exact h
    · rename_i sess hsess
      split
      · exact h
      · split
        · exact h
        · split
          · exact h
          · rename_i db2 hbody
            show oneActiveSessionInv db2
            simp only [checkoutAtomicBody] at hbody
            split at hbody
            · simp at hbody
            · rename_i pr hproc
              simp only [Option.some.injEq] at hbody
              intro u
              rw [← hbody]
              show List.countP (userActiveSession u)
                (db.sessions.map (fun s =>
                  if s.id == sess.id
                  then { s with status := SessionStatus.completed, hasExitTime := true }
                  else s)) ≤ 1
              refine le_trans (countP_map_le _ _ ?_ db.sessions) (h u)
              intro x hx
              by_cases hc : (x.id == sess.id) = true
              · rw [if_pos hc] at hx
                unfold userActiveSession at hx
                simp at hx
              · rw [if_neg hc] at hx
                exact hx

/-- Witness for C5: both handlers applied to `dbCart`, whose single session
is ACTIVE, keep every user at no more than one ACTIVE session. -/
theorem one_active_session_per_user_witness :
    oneActiveSessionInv (checkout dbCart 1 1 1).2 :=
  one_active_session_per_user.2 dbCart 1 1 1
    (fun u => le_trans (List.countP_le_length _) (by decide))

/-- Claim C2: for every completed checkout, the sum of the created
`TransactionItem.total` fields equals the created `Transaction.total_amount`;
both are computed from the same cart lines as subtotal plus per-line VAT, and
`discount_amount` is zero (views.py lines 674-734). -/
theorem checkout_total_consistency (db : DB) (userId sessionId accountId txnId : Nat) (db2 : DB)
    (h : checkout db userId sessionId accountId = (CheckoutResult.success txnId, db2)) :
    ∃ txn items,
      db2.transactions = db.transactions ++ [txn] ∧
      db2.txnItems = db.txnItems ++ items ∧
      (items.map TxnItem.total).sum = txn.totalAmount ∧
      txn.discountAmount = 0 ∧
      txn.totalAmount = txn.subtotal + txn.vatAmount := by
  obtain ⟨sess, pa, hsess, hpa, htxnid, hbody⟩ :=
    checkout_success_form db userId sessionId accountId txnId db2 h
  simp only [checkoutAtomicBody] at hbody
  split at hbody
  · simp at hbody
  · rename_i items inv2 hproc
    simp only [Option.some.injEq] at hbody
    refine ⟨{ id := db.transactions.length + 1, sessionId := sess.id, userId := sess.userId,
              storeId := sess.storeId, paymentAccountId := pa.id,
              subtotal := cartSubtotal (db.carts.filter (fun c => c.sessionId == sessionId)),
              vatAmount := cartVat db (db.carts.filter (fun c => c.sessionId == sessionId)),
              discountAmount := 0,
              totalAmount := cartSubtotal (db.carts.filter (fun c => c.sessionId == sessionId)) +
                cartVat db (db.carts.filter (fun c => c.sessionId == sessionId)),
              status := TxnStatus.completed }, items, ?_, ?_, ?_, rfl, rfl⟩
    · rw [← hbody]
    · rw [← hbody]
    · have htot := processCartLines_totals db (db.transactions.length + 1) sess.storeId
        (db.carts.filter (fun c => c.sessionId == sessionId)) [] db.inventory items inv2 hproc
      rw [htot]
      simp only [List.map_nil, List.nil_append]
      rw [cart_sum_split]

/-- Witness for C2: checking out the two-unit cart of `dbCart` produces a
transaction whose total equals the sum of its item totals. -/
theorem checkout_total_consistency_witness :
    ∃ txn items,
      (checkout dbCart 1 1 1).2.transactions = dbCart.transactions ++ [txn] ∧
      (checkout dbCart 1 1 1).2.txnItems = dbCart.txnItems ++ items ∧
      (items.map TxnItem.total).sum = txn.totalAmount ∧
      txn.discountAmount = 0 ∧
      txn.totalAmount = txn.subtotal + txn.vatAmount :=
  checkout_total_consistency dbCart 1 1 1 1 (checkout dbCart 1 1 1).2 rfl

/-- Claim C4: `LoyaltyProgram.current_balance = total_points_earned −
total_points_redeemed` is preserved by every operation touching loyalty
state: checkout's EARN accrual adds the same `int(total)` to both
`total_points_earned` and `current_balance` (views.py lines 775-777), and a
freshly created program carries the zero defaults. -/
theorem loyalty_balance_invariant :
    (∀ db userId sessionId accountId, loyaltyInv db →
      loyaltyInv (checkout db userId sessionId accountId).2) ∧
    (∀ userId, (newLoyaltyProgram userId).currentBalance =
      (newLoyaltyProgram userId).totalPointsEarned -
        (newLoyaltyProgram userId).totalPointsRedeemed) := by
  constructor
  · intro db userId sessionId accountId h
    simp only [checkout]
    split
    · exact h
    · rename_i sess hsess
      split
      · exact h
      · split
        · exact h
        · split
          · exact h
          · rename_i db2 hbody
            show loyaltyInv db2
            simp only [checkoutAtomicBody] at hbody
            split at hbody
            · simp at hbody
            · rename_i items inv2 hproc
              simp only [Option.some.injEq] at hbody
              intro lp hlp
              rw [← hbody] at hlp
              rcases mem_saveLoyalty hlp with heq2 | hin
              · rw [heq2]
                exact earn_preserves_balance _ _
                  (getOrCreateLoyalty_balance db.loyalty sess.userId h)
              · exact h lp hin
  · intro userId
    rfl

/-- Witness for C4: the invariant holds in `dbCart` (no loyalty rows) and
still holds after the checkout that creates and credits user 1's program. -/
theorem loyalty_balance_invariant_witness :
    loyaltyInv (checkout dbCart 1 1 1).2 :=
  loyalty_balance_invariant.1 dbCart 1 1 1 (by intro lp hlp; simp [dbCart, dbMain] at hlp)

/-- Claim C7: a completed checkout accrues loyalty points at one point per
currency unit of the transaction total, truncated to a whole number
(`int(total)`, views.py line 775): the appended EARN `LoyaltyTransaction`
carries exactly `pyInt` of the created transaction's total, records the new
balance, and the user's balance grows by the same amount. -/
theorem checkout_loyalty_points (db : DB) (userId sessionId accountId txnId : Nat) (db2 : DB)
    (h : checkout db userId sessionId accountId = (CheckoutResult.success txnId, db2)) :
    ∃ txn ltxn,
      db2.transactions = db.transactions ++ [txn] ∧
      db2.loyaltyTxns = db.loyaltyTxns ++ [ltxn] ∧
      ltxn.ttype = LoyaltyTxnType.earn ∧
      ltxn.points = pyInt txn.totalAmount ∧
      ltxn.balanceAfter = (getOrCreateLoyalty db2.loyalty userId).currentBalance ∧
      (getOrCreateLoyalty db2.loyalty userId).currentBalance =
        (getOrCreateLoyalty db.loyalty userId).currentBalance + pyInt txn.totalAmount := by
  obtain ⟨sess, pa, hsess, hpa, htxnid, hbody⟩ :=
    checkout_success_form db userId sessionId accountId txnId db2 h
  have hp := List.find?_some hsess
  unfold sessionMatch at hp
  simp only [Bool.and_eq_true, beq_iff_eq] at hp
  have huser : sess.userId = userId := hp.1.2
  simp only [checkoutAtomicBody] at hbody
  split at hbody
  · simp at hbody
  · rename_i items inv2 hproc
    simp only [Option.some.injEq] at hbody
    have huid2 : (getOrCreateLoyalty db.loyalty sess.userId).userId = userId := by
      rw [getOrCreateLoyalty_userId]
      exact huser
    refine ⟨{ id := db.transactions.length + 1, sessionId := sess.id, userId := sess.userId,
              storeId := sess.storeId, paymentAccountId := pa.id,
              subtotal := cartSubtotal (db.carts.filter (fun c => c.sessionId == sessionId)),
              vatAmount := cartVat db (db.carts.filter (fun c => c.sessionId == sessionId)),
              discountAmount := 0,
              totalAmount := cartSubtotal (db.carts.filter (fun c => c.sessionId == sessionId)) +
                cartVat db (db.carts.filter (fun c => c.sessionId == sessionId)),
              status := TxnStatus.completed },
            { programUserId := sess.userId, ttype := LoyaltyTxnType.earn,
              points := pyInt (cartSubtotal (db.carts.filter (fun c => c.sessionId == sessionId)) +
                cartVat db (db.carts.filter (fun c => c.sessionId == sessionId))),
              balanceAfter := (getOrCreateLoyalty db.loyalty sess.userId).currentBalance +
                pyInt (cartSubtotal (db.carts.filter (fun c => c.sessionId == sessionId)) +
                  cartVat db (db.carts.filter (fun c => c.sessionId == sessionId))),
              relatedTxnId := some (db.transactions.length + 1) },
            ?_, ?_, rfl, rfl, ?_, ?_⟩
    · rw [← hbody]
    · rw [← hbody]
    · rw [← hbody]
      dsimp only
      rw [huser]
      have hk := getOrCreate_after_save db.loyalty
        { userId := (getOrCreateLoyalty db.loyalty userId).userId,
          totalPointsEarned := (getOrCreateLoyalty db.loyalty userId).totalPointsEarned +
            pyInt (cartSubtotal (db.carts.filter (fun c => c.sessionId == sessionId)) +
              cartVat db (db.carts.filter (fun c => c.sessionId == sessionId))),
          totalPointsRedeemed := (getOrCreateLoyalty db.loyalty userId).totalPointsRedeemed,
          currentBalance := (getOrCreateLoyalty db.loyalty userId).currentBalance +
            pyInt (cartSubtotal (db.carts.filter (fun c => c.sessionId == sessionId)) +
              cartVat db (db.carts.filter (fun c => c.sessionId == sessionId))) }
        userId (getOrCreateLoyalty_userId db.loyalty userId)
      rw [hk]
    · rw [← hbody]
      dsimp only
      rw [huser]
      have hk := getOrCreate_after_save db.loyalty
        { userId := (getOrCreateLoyalty db.loyalty userId).userId,
          totalPointsEarned := (getOrCreateLoyalty db.loyalty userId).totalPointsEarned +
            pyInt (cartSubtotal (db.carts.filter (fun c => c.sessionId == sessionId)) +
              cartVat db (db.carts.filter (fun c => c.sessionId == sessionId))),
          totalPointsRedeemed := (getOrCreateLoyalty db.loyalty userId).totalPointsRedeemed,
          currentBalance := (getOrCreateLoyalty db.loyalty userId).currentBalance +
            pyInt (cartSubtotal (db.carts.filter (fun c => c.sessionId == sessionId)) +
              cartVat db (db.carts.filter (fun c => c.sessionId == sessionId))) }
        userId (getOrCreateLoyalty_userId db.loyalty userId)
      rw [hk]

/-- Witness for C7: checking out `dbCart` (total 116/5 = 23.2 KES) accrues
exactly 23 points. -/
theorem checkout_loyalty_points_witness :
    ∃ txn ltxn,
      (checkout dbCart 1 1 1).2.transactions = dbCart.transactions ++ [txn] ∧
      (checkout dbCart 1 1 1).2.loyaltyTxns = dbCart.loyaltyTxns ++ [ltxn] ∧
      ltxn.ttype = LoyaltyTxnType.earn ∧
      ltxn.points = pyInt txn.totalAmount ∧
      ltxn.balanceAfter = (getOrCreateLoyalty (checkout dbCart 1 1 1).2.loyalty 1).currentBalance ∧
      (getOrCreateLoyalty (checkout dbCart 1 1 1).2.loyalty 1).currentBalance =
        (getOrCreateLoyalty dbCart.loyalty 1).currentBalance + pyInt txn.totalAmount :=
  checkout_loyalty_points dbCart 1 1 1 1 (checkout dbCart 1 1 1).2 rfl
